import Mathlib

/-
Verification of the Traveler report request/assembly engine (app_32.py).

The embedding below is a shallow model of the source file:
  - pandas DataFrames become row-oriented `Frame`s (a header of column
    names plus rectangular rows of cell values);
  - `pd.to_datetime(.., errors = "coerce")` is modelled by an arbitrary
    parse function `CellV → Option Nat` (a `none` result is the NaT
    marker);
  - the Streamlit "Run AWS Query" button handler becomes `runHandler`,
    a pure function from the submitted form state to an outcome that is
    either a reported error or the remote-call payload;
  - `render_unified_export` becomes `render` (value level) and
    `renderRef` (a store-passing version that tracks pandas object
    identity, used to reason about mutation of the caller's frames).
-/

/-- A spreadsheet / DataFrame cell value.  `ts none` is the NaT
(missing-timestamp) marker produced by coercing an unparsable value. -/
inductive CellV where
  | str (s : String)
  | num (n : Int)
  | ts (t : Option Nat)
  | na
deriving DecidableEq, Repr

/-- Python `str(...)` on a cell value, used for the synthesized
measurement name `f"M{row[m_val_col]}"`. -/
def cellToString : CellV → String
  | .str s => s
  | .num n => toString n
  | .ts (some t) => toString t
  | .ts none => "NaT"
  | .na => "nan"

/-- Row-oriented model of a pandas DataFrame: a list of column names and
rectangular rows of cells. -/
structure Frame where
  header : List String
  rows : List (List CellV)
deriving DecidableEq, Repr

/-- Index of the first occurrence of a name in a header. -/
def idxOf? (n : String) : List String → Option Nat
  | [] => none
  | h :: t => if h = n then some 0 else (idxOf? n t).map (· + 1)

/-- `n in df.columns`. -/
def Frame.hasCol (f : Frame) (n : String) : Bool :=
  (idxOf? n f.header).isSome

/-- `df[n]` as a list of cells (reading down the column). -/
def Frame.getCol (f : Frame) (n : String) : List CellV :=
  match idxOf? n f.header with
  | some i => f.rows.map (fun r => r.getD i .na)
  | none => []

/-- `df[n] = vs`: replace the column if present, else append it. -/
def Frame.setCol (f : Frame) (n : String) (vs : List CellV) : Frame :=
  match idxOf? n f.header with
  | some i => ⟨f.header, List.zipWith (fun r v => r.set i v) f.rows vs⟩
  | none => ⟨f.header ++ [n], List.zipWith (fun r v => r ++ [v]) f.rows vs⟩

/-- `df.drop(columns=[n], errors="ignore")`. -/
def Frame.dropCol (f : Frame) (n : String) : Frame :=
  match idxOf? n f.header with
  | some i => ⟨f.header.eraseIdx i, f.rows.map (fun r => r.eraseIdx i)⟩
  | none => f

/-- pandas `df.empty`: true when the frame has no rows or no columns. -/
def Frame.isEmptyF (f : Frame) : Bool :=
  f.rows.isEmpty || f.header.isEmpty

/-- Rectangularity: every row has exactly one cell per header entry. -/
def Frame.WF (f : Frame) : Prop :=
  ∀ r ∈ f.rows, r.length = f.header.length

instance (f : Frame) : Decidable f.WF := by
  unfold Frame.WF; infer_instance

/-- The empty frame (used only as a `getD` default). -/
def emptyFrame : Frame := ⟨[], []⟩

instance : Inhabited Frame := ⟨emptyFrame⟩

/-! ### Measurement Normalizer (lines 286-296 of app_32.py) -/

/-- A measurement row as iterated by `measurements_df.iterrows()`:
an association of column labels to cell values. -/
abbrev MRow := List (String × CellV)

/-- The fixed priority list of accepted value-column spellings,
`['M value', 'M Value', 'M_Value', 'm_value']`. -/
def valueCols : List String := ["M value", "M Value", "M_Value", "m_value"]

/-- The fixed priority list of accepted name-column spellings,
`['M Name', 'M name', 'M_name', 'm_name']`. -/
def nameCols : List String := ["M Name", "M name", "M_name", "m_name"]

/-- `next((c for c in cands if c in idx), None)`: the first candidate
spelling present among the row's column labels. -/
def findCol (cands : List String) (idx : List String) : Option String :=
  cands.find? (fun c => idx.contains c)

/-- `row[c]` (total: `.na` when the label is absent, which never happens
for labels obtained from `findCol`). -/
def rowGet (row : MRow) (c : String) : CellV :=
  ((row.find? (fun kv => kv.1 = c)).map Prod.snd).getD .na

/-- One outgoing measurement record `{"M_value": .., "M_name": ..}`. -/
structure Measurement where
  mValue : CellV
  mName : CellV
deriving DecidableEq, Repr

/-- The per-row body of the measurement loading loop: resolve the value
column (drop the row when none matches), then the name column (falling
back to the synthesized name `"M" + str(value)`). -/
def measurementOfRow (row : MRow) : Option Measurement :=
  match findCol valueCols (row.map Prod.fst) with
  | none => none
  | some vc =>
      some { mValue := rowGet row vc,
             mName :=
               match findCol nameCols (row.map Prod.fst) with
               | some nc => rowGet row nc
               | none => .str ("M" ++ cellToString (rowGet row vc)) }

/-- The measurement loading loop over `measurements_df.iterrows()`. -/
def loadMeasurements : List MRow → List Measurement
  | [] => []
  | r :: rs =>
      match measurementOfRow r with
      | some m => m :: loadMeasurements rs
      | none => loadMeasurements rs

/-! ### Range Resolver (lines 303-316 of app_32.py) -/

/-- One entry of the `custom_ranges` mapping: `{'enabled': True, 'value': v}`. -/
structure RangeEntry where
  enabled : Bool
  value : Int
deriving DecidableEq, Repr

/-- Lines 304-312: the four sequential conditional insertions into the
`custom_ranges` dict (modelled as an ordered association list; centers
are modelled as integers, only `> 0` comparisons occur). -/
def buildCustomRanges (u1 : Bool) (h1 : Int) (u2 : Bool) (h2 : Int)
    (w1 : Bool) (l1 : Int) (w2 : Bool) (l2 : Int) :
    List (String × RangeEntry) :=
  (if u1 = true ∧ h1 > 0 then [("High 1", ⟨true, h1⟩)] else []) ++
  (if u2 = true ∧ h2 > 0 then [("High 2", ⟨true, h2⟩)] else []) ++
  (if w1 = true ∧ l1 > 0 then [("Low 1", ⟨true, l1⟩)] else []) ++
  (if w2 = true ∧ l2 > 0 then [("Low 2", ⟨true, l2⟩)] else [])

/-! ### Run AWS Query handler (lines 277-330 of app_32.py) -/

/-- The outbound payload assembled for `query_aws_api`. -/
structure QueryRequest where
  assetId : String
  timeframes : List String
  reportDate : String
  scopeDays : Nat
  customRanges : List (String × RangeEntry)
  measurements : List Measurement
deriving DecidableEq, Repr

/-- The form state consumed by the button handler.  `measurementLoad` is
`none` when `pd.read_excel` raises, `some tbl` when it yields rows. -/
structure Submission where
  measurementFileGiven : Bool
  measurementLoad : Option (List MRow)
  assetId : String
  timeframes : List String
  reportDate : String
  scopeDays : Nat
  useHigh1 : Bool
  high1 : Int
  useHigh2 : Bool
  high2 : Int
  useLow1 : Bool
  low1 : Int
  useLow2 : Bool
  low2 : Int
deriving Repr

/-- The resolved `custom_ranges` mapping of a submission. -/
def crOfSub (sub : Submission) : List (String × RangeEntry) :=
  buildCustomRanges sub.useHigh1 sub.high1 sub.useHigh2 sub.high2
    sub.useLow1 sub.low1 sub.useLow2 sub.low2

/-- Outcome of the handler up to (and including) the decision to invoke
the remote service: one of the three `st.error`+`st.stop` exits, or the
remote call with its payload. -/
inductive HandlerOutcome where
  | errNoMeasurementFile
  | errMeasurementLoad
  | errNoActiveRange
  | remoteCall (q : QueryRequest)
deriving DecidableEq, Repr

/-- Whether the outcome reaches the remote call. -/
def HandlerOutcome.isRemoteCall : HandlerOutcome → Bool
  | .remoteCall _ => true
  | _ => false

/-- Lines 277-330: missing measurement file check, measurement loading
(an exception aborts the cycle), custom range resolution, the
empty-range check, then the call to `query_aws_api`.  No check of the
timeframe selection or of `scope_days` occurs in the handler. -/
def runHandler (sub : Submission) : HandlerOutcome :=
  if sub.measurementFileGiven = false then .errNoMeasurementFile
  else
    match sub.measurementLoad with
    | none => .errMeasurementLoad
    | some tbl =>
        let ms := loadMeasurements tbl
        let cr := crOfSub sub
        if cr.isEmpty then .errNoActiveRange
        else .remoteCall
          { assetId := sub.assetId
            timeframes := sub.timeframes
            reportDate := sub.reportDate
            scopeDays := sub.scopeDays
            customRanges := cr
            measurements := ms }

/-! ### Report Export Engine (lines 80-135 of app_32.py) -/

/-- The report time (`dt.datetime`), to the fields `strftime` uses here. -/
structure DateTime where
  year : Nat
  month : Nat
  day : Nat
  hour : Nat
  minute : Nat
deriving DecidableEq, Repr

/-- Zero-padded two-digit rendering, as `strftime` does for
`%d`, `%y`, `%H`, `%M`. -/
def two (n : Nat) : String :=
  if n < 10 then "0" ++ toString n else toString n

/-- `strftime` `%b` month abbreviation (C locale). -/
def monthAbbrev : Nat → String
  | 1 => "Jan" | 2 => "Feb" | 3 => "Mar" | 4 => "Apr"
  | 5 => "May" | 6 => "Jun" | 7 => "Jul" | 8 => "Aug"
  | 9 => "Sep" | 10 => "Oct" | 11 => "Nov" | 12 => "Dec"
  | _ => ""

/-- Line 88: `report_time.strftime("%d-%b-%y_%H-%M")`. -/
def fmtReportTime (t : DateTime) : String :=
  two t.day ++ "-" ++ monthAbbrev t.month ++ "-" ++ two (t.year % 100) ++
    "_" ++ two t.hour ++ "-" ++ two t.minute

/-- Python `str.lower()`: character-wise lowercasing (ASCII suffices for
the asset ids in scope). -/
def strLower (s : String) : String := String.mk (s.toList.map Char.toLower)

/-- Line 87: `asset_prefix = f"{asset_id.lower()}_" if asset_id else ""`
(an empty string is falsy in Python). -/
def assetPrefixOf (assetId : String) : String :=
  if assetId ≠ "" then strLower assetId ++ "_" else ""

/-- Line 132: `f"{asset_prefix}traveler_report_{report_datetime_str}.xlsx"`. -/
def exportFileName (assetId : String) (t : DateTime) : String :=
  assetPrefixOf assetId ++ "traveler_report_" ++ fmtReportTime t ++ ".xlsx"

/-- Python `str.replace` for a single-character pattern and single-
character replacement: character-wise substitution. -/
def replaceChar (c d : Char) (s : String) : String :=
  String.mk (s.toList.map (fun x => if x = c then d else x))

/-- Line 111: `group_name.replace(" ", "_").replace("-", "_")[:31]`
(both replacements are single-character, hence character-wise). -/
def sheetNameOf (g : String) : String :=
  String.mk ((replaceChar '-' '_' (replaceChar ' ' '_' g)).toList.take 31)

/-- Lines 90-96, value level: `_coerce_arrival_datetime`.  `parse` models
`pd.to_datetime(.., errors="coerce")`; a `none` result is NaT.  The
`df = df.copy()` line is identity at value level (see `coerceArrivalRef`
for the object-identity version). -/
def coerceArrivalF (parse : CellV → Option Nat) (df : Frame) : Frame :=
  if df.hasCol "Arrival_datetime" then
    df.setCol "Arrival"
      ((df.getCol "Arrival_datetime").map (fun v => CellV.ts (parse v)))
  else if df.hasCol "Arrival" then
    df.setCol "Arrival"
      ((df.getCol "Arrival").map (fun v => CellV.ts (parse v)))
  else df

/-- A value of the `traveler_reports` dict: a DataFrame or anything else
(the `isinstance(group_data, pd.DataFrame)` checks). -/
inductive GVal where
  | frame (f : Frame)
  | other
deriving DecidableEq, Repr

/-- A TravelerReport: the insertion-ordered `traveler_reports` dict. -/
abbrev TravelerReport := List (String × GVal)

/-- Lines 107-115: the sheet-writing loop.  Empty or non-DataFrame groups
are skipped; for the rest the `Group` column is dropped and Arrival is
coerced, and the result is written under the transformed sheet name. -/
def groupSheets (parse : CellV → Option Nat) (tr : TravelerReport) :
    List (String × Frame) :=
  tr.filterMap (fun gv =>
    match gv.2 with
    | .frame f =>
        if f.isEmptyF then none
        else some (sheetNameOf gv.1, coerceArrivalF parse (f.dropCol "Group"))
    | .other => none)

/-- Line 126: `sum(len(df) for df in traveler_reports.values() if
isinstance(df, pd.DataFrame))`. -/
def totalEntriesOf (tr : TravelerReport) : Nat :=
  (tr.filterMap (fun gv =>
    match gv.2 with
    | .frame f => some f.rows.length
    | .other => none)).sum

/-- Line 127: the count of non-empty DataFrame groups. -/
def numGroupsOf (tr : TravelerReport) : Nat :=
  (tr.filter (fun gv =>
    match gv.2 with
    | .frame f => !f.isEmptyF
    | .other => false)).length

/-- The artifact handed to `st.download_button`: the written sheets, the
two summary metrics, and the filename. -/
structure ExportResult where
  sheets : List (String × Frame)
  totalEntries : Nat
  numGroups : Nat
  fileName : String
deriving DecidableEq, Repr

/-- Lines 80-135: `render_unified_export`.  An empty `traveler_reports`
dict is falsy, so the function returns immediately (`none`: no workbook
and no download button); otherwise the workbook is built and offered. -/
def render (parse : CellV → Option Nat) (tr : TravelerReport)
    (reportTime : DateTime) (assetId : String) : Option ExportResult :=
  if tr.isEmpty then none
  else some
    { sheets := groupSheets parse tr
      totalEntries := totalEntriesOf tr
      numGroups := numGroupsOf tr
      fileName := exportFileName assetId reportTime }

/-! ### Query result handling (lines 350-361 of app_32.py) -/

/-- Key collection of `pd.DataFrame(list_of_dicts)`: columns in order of
first appearance. -/
def insertKey (acc : List String) (k : String) : List String :=
  if acc.contains k then acc else acc ++ [k]

/-- Columns of `pd.DataFrame(data)` for a list of record dicts. -/
def collectCols (data : List MRow) : List String :=
  data.foldl (fun acc r => r.foldl (fun a kv => insertKey a kv.1) acc) []

/-- One aligned row of `pd.DataFrame(data)` (missing keys become NaN). -/
def rowFor (cols : List String) (r : MRow) : List CellV :=
  cols.map (fun c => rowGet r c)

/-- Line 352: `df = pd.DataFrame(data)`. -/
def dataFrameOfRecords (data : List MRow) : Frame :=
  ⟨collectCols data, data.map (rowFor (collectCols data))⟩

/-- Lines 350-361: on a successful query with `count > 0`, the rows are
wrapped as the single group `"Grp_All"` and passed to the export helper.
No sorting of any kind is applied between the service response and the
export. -/
def handleQueryResult (parse : CellV → Option Nat) (data : List MRow)
    (reportTime : DateTime) (assetId : String) : Option ExportResult :=
  render parse [("Grp_All", GVal.frame (dataFrameOfRecords data))]
    reportTime assetId

/-! ### Claim-side ordering (from the spec, for comparison only) -/

/-- Lexicographic ≤ on character lists (the "lexical range-label
ordering" of the spec). -/
def charListLe : List Char → List Char → Bool
  | [], _ => true
  | _ :: _, [] => false
  | a :: as, b :: bs => if a = b then charListLe as bs else decide (a < b)

/-- Lexicographic ≤ on strings. -/
def strLeB (a b : String) : Bool := charListLe a.toList b.toList

/-- Ascending order on cells of like kind; on timestamps, NaT sorts
last.  This is the spec-side comparison used to state the claimed sort
order; it is not part of the source. -/
def cellLe : CellV → CellV → Bool
  | .str a, .str b => strLeB a b
  | .num a, .num b => a ≤ b
  | .ts (some a), .ts (some b) => a ≤ b
  | .ts (some _), .ts none => true
  | .ts none, .ts (some _) => false
  | _, _ => true

/-- Modelled from the spec: lexicographic row comparison along a key
precedence list (keys absent from the header are skipped). -/
def rowLexLeB (hdr : List String) (keys : List String)
    (r1 r2 : List CellV) : Bool :=
  match keys with
  | [] => true
  | k :: ks =>
      match idxOf? k hdr with
      | none => rowLexLeB hdr ks r1 r2
      | some i =>
          let a := r1.getD i .na
          let b := r2.getD i .na
          if a = b then rowLexLeB hdr ks r1 r2 else cellLe a b

/-- Boolean chain check: consecutive elements are related. -/
def chainB (le : α → α → Bool) : List α → Bool
  | [] => true
  | [_] => true
  | a :: b :: t => le a b && chainB le (b :: t)

/-- Modelled from the spec: the rows of a frame are ascending along the
given key precedence. -/
def Frame.sortedByB (f : Frame) (keys : List String) : Bool :=
  chainB (rowLexLeB f.header keys) f.rows

/-- The claimed key precedence when a Range column is present. -/
def claimSortKeys : List String := ["Range", "Group", "Output", "Arrival"]

/-! ### Store-passing export (object identity, for the frame effect) -/

/-- A heap of pandas DataFrame objects; group values hold object ids. -/
abbrev Store := List Frame

/-- A `traveler_reports` value by reference: a DataFrame object id or a
non-DataFrame value. -/
inductive GRef where
  | frame (i : Nat)
  | other
deriving Repr

/-- Lines 90-96 with object identity: `df = df.copy()` allocates a new
object; the `df["Arrival"] = ...` assignment mutates only that new
object.  Returns the updated store and the id of the result. -/
def coerceArrivalRef (parse : CellV → Option Nat) (s : Store) (i : Nat) :
    Store × Nat :=
  let df := s.getD i emptyFrame
  if df.hasCol "Arrival_datetime" then
    (s ++ [df.setCol "Arrival"
        ((df.getCol "Arrival_datetime").map (fun v => CellV.ts (parse v)))],
     s.length)
  else if df.hasCol "Arrival" then
    (s ++ [df.setCol "Arrival"
        ((df.getCol "Arrival").map (fun v => CellV.ts (parse v)))],
     s.length)
  else (s ++ [df], s.length)

/-- Lines 112-113 with object identity: `group_data.drop(...)` returns a
fresh object, `.copy()` copies it again; we model the combination as one
allocation holding the dropped frame, then coerce Arrival on it.
Returns the updated store and the frame written to the sheet. -/
def exportGroupStep (parse : CellV → Option Nat) (s : Store) (i : Nat) :
    Store × Frame :=
  let s1 := s ++ [(s.getD i emptyFrame).dropCol "Group"]
  let r := coerceArrivalRef parse s1 s.length
  (r.1, r.1.getD r.2 emptyFrame)

/-- Lines 107-115 with object identity: the sheet loop.  The caller's
objects are never written to; all writes go to freshly allocated ids. -/
def renderRefGroups (parse : CellV → Option Nat) :
    List (String × GRef) → Store → Store × List (String × Frame)
  | [], s => (s, [])
  | (_, GRef.other) :: rest, s => renderRefGroups parse rest s
  | (g, GRef.frame i) :: rest, s =>
      if (s.getD i emptyFrame).isEmptyF then renderRefGroups parse rest s
      else
        ((renderRefGroups parse rest (exportGroupStep parse s i).1).1,
         (sheetNameOf g, (exportGroupStep parse s i).2) ::
           (renderRefGroups parse rest (exportGroupStep parse s i).1).2)

/-- `render_unified_export` at the store level (the early return on an
empty dict, then the sheet loop). -/
def renderRef (parse : CellV → Option Nat) (tr : List (String × GRef))
    (s : Store) : Store × List (String × Frame) :=
  if tr.isEmpty then (s, []) else renderRefGroups parse tr s

/-! ### Sample inputs used by witnesses and counterexamples -/

/-- A concrete stand-in for `pd.to_datetime(.., errors="coerce")`:
knows the three timestamps used in the examples, `none` otherwise. -/
def parseSample : CellV → Option Nat
  | .str "2024-03-05T18:00:00" => some 1709661600
  | .str "2024-01-01" => some 19723
  | .str "2024-01-02" => some 19724
  | _ => none

/-- Report time 2024-03-05 18:00. -/
def sampleTime : DateTime := ⟨2024, 3, 5, 18, 0⟩

/-- A valid submission except that no timeframe is selected. -/
def sampleSubNoTimeframes : Submission :=
  { measurementFileGiven := true
    measurementLoad := some [[("M value", CellV.num 5)]]
    assetId := "NQ"
    timeframes := []
    reportDate := "2024-03-05"
    scopeDays := 20
    useHigh1 := true
    high1 := 100
    useHigh2 := false
    high2 := 0
    useLow1 := false
    low1 := 0
    useLow2 := false
    low2 := 0 }

/-- A submission whose only enabled range has a non-positive center, so
the resolved mapping is empty. -/
def sampleSubNoRange : Submission :=
  { measurementFileGiven := true
    measurementLoad := some [[("M value", CellV.num 5), ("M Name", CellV.str "alpha")]]
    assetId := "NQ"
    timeframes := ["3m", "5m", "15m"]
    reportDate := "2024-03-05"
    scopeDays := 20
    useHigh1 := false
    high1 := 0
    useHigh2 := false
    high2 := 0
    useLow1 := true
    low1 := 0
    useLow2 := false
    low2 := 0 }

/-- A group value is "empty or non-tabular": not a DataFrame, or a
DataFrame without rows. -/
def groupEmptyOrNonTabular (gv : String × GVal) : Bool :=
  match gv.2 with
  | .frame f => f.rows.isEmpty
  | .other => true

/-- A frame carrying both an `Arrival_datetime` column (one parsable and
one unparsable value) and a pre-existing `Arrival` column. -/
def c7Frame : Frame :=
  ⟨["Arrival", "Arrival_datetime"],
   [[CellV.str "PREEXISTING", CellV.str "2024-03-05T18:00:00"],
    [CellV.str "ALSO-OLD", CellV.str "garbage"]]⟩

/-- A TravelerReport whose groups are a row-less frame and a
non-tabular value. -/
def c2SampleReport : TravelerReport :=
  [("Grp_All", GVal.frame ⟨["Output"], []⟩), ("Note", GVal.other)]

/-- A one-group, one-row TravelerReport. -/
def c9SampleReport : TravelerReport :=
  [("Grp_All", GVal.frame ⟨["Output"], [[CellV.num 1]]⟩)]

/-- The artifact produced for `c9SampleReport` at `sampleTime` with
asset id "NQ". -/
def c9SampleResult : ExportResult :=
  { sheets := [("Grp_All", ⟨["Output"], [[CellV.num 1]]⟩)]
    totalEntries := 1
    numGroups := 1
    fileName := "nq_traveler_report_05-Mar-24_18-00.xlsx" }

/-- The spec's own sort-order example: the "Low 1" row arrives before
the "High 1" row in the service response. -/
def c1Data : List MRow :=
  [[("Range", CellV.str "Low 1"), ("Group", CellV.str "A"),
    ("Output", CellV.num 2), ("Arrival", CellV.str "2024-01-02")],
   [("Range", CellV.str "High 1"), ("Group", CellV.str "A"),
    ("Output", CellV.num 1), ("Arrival", CellV.str "2024-01-01")]]

/-- A one-object store whose frame has `Group` and `Arrival` columns. -/
def c10Store : Store :=
  [⟨["Group", "Arrival"], [[CellV.str "A", CellV.str "2024-01-01"]]⟩]

/-- A TravelerReport referring to the single store object. -/
def c10Report : List (String × GRef) := [("Grp_All", GRef.frame 0)]

/-! ### Helper lemmas -/

lemma idxOf?_lt_length {n : String} :
    ∀ {l : List String} {i : Nat}, idxOf? n l = some i → i < l.length := by
  intro l
  induction l with
  | nil => intro i h; simp [idxOf?] at h
  | cons a t ih =>
      intro i h
      unfold idxOf? at h
      by_cases ha : a = n
      · rw [if_pos ha] at h
        injection h with h
        subst h
        simp
      · rw [if_neg ha] at h
        cases hj : idxOf? n t with
        | none => rw [hj] at h; cases h
        | some j =>
            rw [hj] at h
            simp at h
            have := ih hj
            simp only [List.length_cons]
            omega

lemma idxOf?_append_self {n : String} :
    ∀ {l : List String}, idxOf? n l = none → idxOf? n (l ++ [n]) = some l.length := by
  intro l
  induction l with
  | nil => intro _; simp [idxOf?]
  | cons a t ih =>
      intro h
      simp only [List.cons_append]
      unfold idxOf? at h ⊢
      by_cases ha : a = n
      · rw [if_pos ha] at h; simp at h
      · rw [if_neg ha] at h ⊢
        have ht : idxOf? n t = none := by
          cases hj : idxOf? n t with
          | none => rfl
          | some j => rw [hj] at h; simp at h
        rw [ih ht]
        simp

lemma getD_set_self {α : Type} :
    ∀ (r : List α) (i : Nat) (v d : α), i < r.length →
      (r.set i v).getD i d = v := by
  intro r
  induction r with
  | nil => intro i v d h; simp at h
  | cons a t ih =>
      intro i v d h
      cases i with
      | zero => rfl
      | succ j =>
          simp only [List.set_cons_succ, List.getD, List.getElem?_cons_succ]
          have := ih j v d (by simpa using Nat.lt_of_succ_lt_succ h)
          simpa [List.getD] using this

lemma getD_append_len {α : Type} :
    ∀ (r : List α) (v d : α), (r ++ [v]).getD r.length d = v := by
  intro r
  induction r with
  | nil => intro v d; rfl
  | cons a t ih =>
      intro v d
      simp only [List.cons_append, List.length_cons, List.getD,
        List.getElem?_cons_succ]
      have := ih v d
      simp only [List.getD] at this
      exact this

lemma map_getD_zipWith_set {d : CellV} :
    ∀ (rs : List (List CellV)) (vs : List CellV) (i : Nat),
      rs.length = vs.length → (∀ r ∈ rs, i < r.length) →
      (List.zipWith (fun r v => r.set i v) rs vs).map (fun r => r.getD i d) = vs := by
  intro rs
  induction rs with
  | nil =>
      intro vs i hlen _
      cases vs with
      | nil => rfl
      | cons v t => simp at hlen
  | cons r rt ih =>
      intro vs i hlen hall
      cases vs with
      | nil => simp at hlen
      | cons v vt =>
          have h1 : i < r.length := hall r (by simp)
          have h2 : ∀ x ∈ rt, i < x.length := fun x hx => hall x (by simp [hx])
          simp only [List.zipWith_cons_cons, List.map_cons]
          rw [List.getD_eq_getElem?_getD]
          rw [List.getElem?_set_self (by simpa using h1)]
          simp only [Option.getD_some]
          rw [ih vt i (by simpa using hlen) h2]

lemma map_getD_zipWith_append {d : CellV} :
    ∀ (rs : List (List CellV)) (vs : List CellV) (L : Nat),
      rs.length = vs.length → (∀ r ∈ rs, r.length = L) →
      (List.zipWith (fun r v => r ++ [v]) rs vs).map (fun r => r.getD L d) = vs := by
  intro rs
  induction rs with
  | nil =>
      intro vs L hlen _
      cases vs with
      | nil => rfl
      | cons v t => simp at hlen
  | cons r rt ih =>
      intro vs L hlen hall
      cases vs with
      | nil => simp at hlen
      | cons v vt =>
          have h1 : r.length = L := hall r (by simp)
          have h2 : ∀ x ∈ rt, x.length = L := fun x hx => hall x (by simp [hx])
          have hhead : (r ++ [v]).getD L d = v := by
            rw [← h1]; exact getD_append_len r v d
          simp only [List.zipWith_cons_cons, List.map_cons]
          rw [hhead, ih vt L (by simpa using hlen) h2]

lemma getCol_length (f : Frame) (n : String) (h : f.hasCol n = true) :
    (f.getCol n).length = f.rows.length := by
  unfold Frame.hasCol at h
  unfold Frame.getCol
  cases hidx : idxOf? n f.header with
  | none => rw [hidx] at h; simp at h
  | some i => simp

lemma getCol_setCol_full (df : Frame) (n : String) (vs : List CellV)
    (hwf : df.WF) (hlen : vs.length = df.rows.length) :
    (df.setCol n vs).getCol n = vs := by
  unfold Frame.setCol
  cases hidx : idxOf? n df.header with
  | some i =>
      have hi : i < df.header.length := idxOf?_lt_length hidx
      unfold Frame.getCol
      simp only [hidx]
      exact map_getD_zipWith_set df.rows vs i hlen.symm
        (fun r hr => (hwf r hr) ▸ hi)
  | none =>
      unfold Frame.getCol
      simp only
      rw [idxOf?_append_self hidx]
      exact map_getD_zipWith_append df.rows vs df.header.length hlen.symm hwf

lemma zipWith_self_map {α β γ : Type} (f : α → β → γ) (g : α → β) :
    ∀ (l : List α), List.zipWith f l (l.map g) = l.map (fun a => f a (g a)) := by
  intro l
  induction l with
  | nil => rfl
  | cons a t ih => simp [ih]

lemma setCol_rows_map (df : Frame) (n : String) (h : List CellV → CellV) :
    ∃ g, (df.setCol n (df.rows.map h)).rows = df.rows.map g := by
  unfold Frame.setCol
  cases hidx : idxOf? n df.header with
  | some i =>
      exact ⟨fun r => r.set i (h r), by simp [zipWith_self_map]⟩
  | none =>
      exact ⟨fun r => r ++ [h r], by simp [zipWith_self_map]⟩

lemma getCol_as_rows_map (df : Frame) (n : String) (i : Nat)
    (hidx : idxOf? n df.header = some i) :
    df.getCol n = df.rows.map (fun r => r.getD i .na) := by
  unfold Frame.getCol
  rw [hidx]

lemma coerceArrivalF_rows_map (parse : CellV → Option Nat) (df : Frame) :
    ∃ g, (coerceArrivalF parse df).rows = df.rows.map g := by
  unfold coerceArrivalF
  split
  · rename_i h1
    unfold Frame.hasCol at h1
    cases hidx : idxOf? "Arrival_datetime" df.header with
    | none => rw [hidx] at h1; simp at h1
    | some i =>
        rw [getCol_as_rows_map df _ i hidx, List.map_map]
        exact setCol_rows_map df "Arrival" _
  · split
    · rename_i h2
      unfold Frame.hasCol at h2
      cases hidx : idxOf? "Arrival" df.header with
      | none => rw [hidx] at h2; simp at h2
      | some i =>
          rw [getCol_as_rows_map df _ i hidx, List.map_map]
          exact setCol_rows_map df "Arrival" _
    · exact ⟨id, by simp⟩

lemma dropCol_rows_map (df : Frame) (n : String) :
    ∃ g, (df.dropCol n).rows = df.rows.map g := by
  unfold Frame.dropCol
  cases hidx : idxOf? n df.header with
  | some i => exact ⟨fun r => r.eraseIdx i, rfl⟩
  | none => exact ⟨id, by simp⟩

lemma find?_eq_head_filter {α : Type} (p : α → Bool) :
    ∀ (l : List α), l.find? p = (l.filter p).head? := by
  intro l
  induction l with
  | nil => rfl
  | cons a t ih =>
      cases hpa : p a with
      | true =>
          rw [List.find?_cons_of_pos _ hpa, List.filter_cons_of_pos hpa]
          rfl
      | false =>
          have hpa' : ¬ p a = true := by simp [hpa]
          rw [List.find?_cons_of_neg _ hpa', List.filter_cons_of_neg hpa']
          exact ih

lemma getD_append_left {α : Type} :
    ∀ (s ext : List α) (i : Nat) (d : α), i < s.length →
      (s ++ ext).getD i d = s.getD i d := by
  intro s
  induction s with
  | nil => intro ext i d h; simp at h
  | cons a t ih =>
      intro ext i d h
      cases i with
      | zero => rfl
      | succ j =>
          simp only [List.cons_append, List.getD, List.getElem?_cons_succ]
          have := ih ext j d (by simpa using Nat.lt_of_succ_lt_succ h)
          simpa [List.getD] using this

lemma coerceArrivalRef_store (parse : CellV → Option Nat) (s : Store) (i : Nat) :
    ∃ x, coerceArrivalRef parse s i = (s ++ [x], s.length) := by
  unfold coerceArrivalRef
  dsimp only
  split
  · exact ⟨_, rfl⟩
  · split
    · exact ⟨_, rfl⟩
    · exact ⟨_, rfl⟩

lemma exportGroupStep_store (parse : CellV → Option Nat) (s : Store) (i : Nat) :
    ∃ a b, (exportGroupStep parse s i).1 = (s ++ [a]) ++ [b] := by
  obtain ⟨x, hx⟩ :=
    coerceArrivalRef_store parse (s ++ [(s.getD i emptyFrame).dropCol "Group"]) s.length
  refine ⟨(s.getD i emptyFrame).dropCol "Group", x, ?_⟩
  simp only [exportGroupStep]
  rw [hx]

lemma mem_ite_singleton {α : Type} (c : Prop) [Decidable c] (x b : α) :
    (x ∈ (if c then [b] else [])) ↔ (c ∧ x = b) := by
  split
  · rename_i hc; simp [hc]
  · rename_i hc; simp [hc]

lemma renderRefGroups_store (parse : CellV → Option Nat) :
    ∀ (tr : List (String × GRef)) (s : Store),
      ∃ ext, (renderRefGroups parse tr s).1 = s ++ ext := by
  intro tr
  induction tr with
  | nil => intro s; exact ⟨[], by simp [renderRefGroups]⟩
  | cons gv rest ih =>
      intro s
      obtain ⟨g, gr⟩ := gv
      cases gr with
      | other => simpa [renderRefGroups] using ih s
      | frame i =>
          simp only [renderRefGroups]
          split
          · exact ih s
          · obtain ⟨a, b, hab⟩ := exportGroupStep_store parse s i
            obtain ⟨ext, hext⟩ := ih (exportGroupStep parse s i).1
            refine ⟨[a] ++ [b] ++ ext, ?_⟩
            rw [hext, hab]
            simp

/-! ### C4 — measurement column resolution -/

/-- C4 counterexample: the column label "M VALUE" differs from the
accepted spelling "M value" only in letter case, yet the row is dropped:
membership in the priority list is tested by exact string equality, so
the matching is not case-insensitive. -/
theorem c4_counterexample :
    loadMeasurements [[("M VALUE", CellV.num 5)]] = [] ∧
    strLower "M VALUE" = strLower "M value" ∧
    "M value" ∈ valueCols ∧ "M VALUE" ∉ valueCols := by
  decide

/-- C4 (amended): the value and name columns are resolved by consulting
the fixed priority lists `valueCols` and `nameCols` in fixed order,
picking the first spelling exactly present among the row's column
labels; matching is exact (case-sensitive), not case-insensitive. -/
theorem c4_fixed_priority_exact (idx : List String) :
    findCol valueCols idx = (valueCols.filter (fun c => idx.contains c)).head? ∧
    findCol nameCols idx = (nameCols.filter (fun c => idx.contains c)).head? :=
  ⟨find?_eq_head_filter _ valueCols, find?_eq_head_filter _ nameCols⟩

/-! ### C5 — custom range slot resolution -/

/-- C5: a slot appears in the resolved `custom_ranges` mapping iff its
toggle is enabled and its center is positive, and the entry it carries
is exactly `{enabled: true, value: center}`. -/
theorem c5_slot_membership (u1 u2 w1 w2 : Bool) (h1 h2 l1 l2 : Int) :
    (∀ e : RangeEntry,
      ("High 1", e) ∈ buildCustomRanges u1 h1 u2 h2 w1 l1 w2 l2 ↔
        u1 = true ∧ h1 > 0 ∧ e = ⟨true, h1⟩) ∧
    (∀ e : RangeEntry,
      ("High 2", e) ∈ buildCustomRanges u1 h1 u2 h2 w1 l1 w2 l2 ↔
        u2 = true ∧ h2 > 0 ∧ e = ⟨true, h2⟩) ∧
    (∀ e : RangeEntry,
      ("Low 1", e) ∈ buildCustomRanges u1 h1 u2 h2 w1 l1 w2 l2 ↔
        w1 = true ∧ l1 > 0 ∧ e = ⟨true, l1⟩) ∧
    (∀ e : RangeEntry,
      ("Low 2", e) ∈ buildCustomRanges u1 h1 u2 h2 w1 l1 w2 l2 ↔
        w2 = true ∧ l2 > 0 ∧ e = ⟨true, l2⟩) := by
  have n12 : ("High 1" : String) ≠ "High 2" := by decide
  have n13 : ("High 1" : String) ≠ "Low 1" := by decide
  have n14 : ("High 1" : String) ≠ "Low 2" := by decide
  have n21 : ("High 2" : String) ≠ "High 1" := by decide
  have n23 : ("High 2" : String) ≠ "Low 1" := by decide
  have n24 : ("High 2" : String) ≠ "Low 2" := by decide
  have n31 : ("Low 1" : String) ≠ "High 1" := by decide
  have n32 : ("Low 1" : String) ≠ "High 2" := by decide
  have n34 : ("Low 1" : String) ≠ "Low 2" := by decide
  have n41 : ("Low 2" : String) ≠ "High 1" := by decide
  have n42 : ("Low 2" : String) ≠ "High 2" := by decide
  have n43 : ("Low 2" : String) ≠ "Low 1" := by decide
  refine ⟨?_, ?_, ?_, ?_⟩ <;>
    intro e <;>
    simp only [buildCustomRanges, List.mem_append, mem_ite_singleton,
      Prod.mk.injEq] <;>
    simp [n12, n13, n14, n21, n23, n24, n31, n32, n34, n41, n42, n43] <;>
    tauto

/-- C5 witness: with High 1 enabled at center 5, the mapping holds
exactly the entry `{enabled: true, value: 5}` under "High 1". -/
theorem c5_witness :
    ("High 1", (⟨true, 5⟩ : RangeEntry)) ∈
      buildCustomRanges true 5 false 0 false 0 false 0 :=
  ((c5_slot_membership true false false false 5 0 0 0).1 ⟨true, 5⟩).mpr
    ⟨rfl, by decide, rfl⟩

/-! ### C6 — empty resolved range mapping -/

/-- C6: when measurement loading succeeds and the resolved
`custom_ranges` mapping is empty, the handler stops with the
no-active-range error and the remote call is never reached. -/
theorem c6_no_active_range (sub : Submission) (tbl : List MRow)
    (hfile : sub.measurementFileGiven = true)
    (hload : sub.measurementLoad = some tbl)
    (hcr : crOfSub sub = []) :
    runHandler sub = HandlerOutcome.errNoActiveRange ∧
    ∀ q, runHandler sub ≠ HandlerOutcome.remoteCall q := by
  have hmain : runHandler sub = HandlerOutcome.errNoActiveRange := by
    unfold runHandler
    rw [if_neg (by simp [hfile]), hload]
    dsimp only
    rw [hcr]
    rfl
  exact ⟨hmain, fun q hq => by rw [hmain] at hq; cases hq⟩

/-- C6 witness: a concrete submission with one enabled slot whose center
is 0 resolves to an empty mapping and stops with the no-active-range
error. -/
theorem c6_witness :
    runHandler sampleSubNoRange = HandlerOutcome.errNoActiveRange :=
  (c6_no_active_range sampleSubNoRange
    [[("M value", CellV.num 5), ("M Name", CellV.str "alpha")]]
    rfl rfl (by decide)).1

/-! ### C3 — timeframe validation -/

/-- C3 counterexample: a submission with an empty timeframe selection
(and otherwise valid inputs) is not rejected; the handler proceeds to
the remote call, so no validation error is reported before the call. -/
theorem c3_counterexample :
    sampleSubNoTimeframes.timeframes = [] ∧
    (runHandler sampleSubNoTimeframes).isRemoteCall = true := by
  decide

/-- C3 (amended): the handler performs no timeframe validation at all:
any submission that passes the measurement-file and active-range checks
proceeds to the remote call, carrying its timeframe selection verbatim —
including the empty selection. -/
theorem c3_no_timeframe_check (sub : Submission) (tbl : List MRow)
    (hfile : sub.measurementFileGiven = true)
    (hload : sub.measurementLoad = some tbl)
    (hcr : crOfSub sub ≠ []) :
    runHandler sub = HandlerOutcome.remoteCall
      { assetId := sub.assetId
        timeframes := sub.timeframes
        reportDate := sub.reportDate
        scopeDays := sub.scopeDays
        customRanges := crOfSub sub
        measurements := loadMeasurements tbl } := by
  unfold runHandler
  rw [if_neg (by simp [hfile]), hload]
  dsimp only
  rw [if_neg (by simp [List.isEmpty_iff, hcr])]

/-- C3 witness: the empty-timeframe submission reaches the remote call
with `timeframes = []` in its payload. -/
theorem c3_witness :
    runHandler sampleSubNoTimeframes = HandlerOutcome.remoteCall
      { assetId := "NQ"
        timeframes := []
        reportDate := "2024-03-05"
        scopeDays := 20
        customRanges := [("High 1", ⟨true, 100⟩)]
        measurements := [⟨CellV.num 5, CellV.str "M5"⟩] } := by
  have h := c3_no_timeframe_check sampleSubNoTimeframes
    [[("M value", CellV.num 5)]] rfl rfl (by decide)
  rw [h]
  decide

/-! ### C8 — normalizer shape -/

/-- C8: the Measurement Normalizer is order-preserving and tolerant:
the output is the row-order-preserving `filterMap` of the per-row
resolution, empty input yields the empty list, a row with no
recognizable value column is dropped, and a row with a value but no
recognizable name column gets the synthesized name "M" followed by the
value. -/
theorem c8_normalizer_shape :
    (∀ rows : List MRow, loadMeasurements rows = rows.filterMap measurementOfRow) ∧
    loadMeasurements [] = [] ∧
    (∀ row : MRow, findCol valueCols (row.map Prod.fst) = none →
      measurementOfRow row = none) ∧
    (∀ (row : MRow) (c : String),
      findCol valueCols (row.map Prod.fst) = some c →
      findCol nameCols (row.map Prod.fst) = none →
      measurementOfRow row =
        some ⟨rowGet row c, CellV.str ("M" ++ cellToString (rowGet row c))⟩) := by
  refine ⟨?_, rfl, ?_, ?_⟩
  · intro rows
    induction rows with
    | nil => rfl
    | cons r rs ih =>
        unfold loadMeasurements
        rw [List.filterMap_cons]
        cases h : measurementOfRow r with
        | some m => rw [ih]
        | none => rw [ih]
  · intro row h
    unfold measurementOfRow
    rw [h]
  · intro row c hv hn
    unfold measurementOfRow
    rw [hv, hn]

/-- C8 witness: a row with only a junk column is dropped, and a row with
a value 5 and no name column yields the synthesized name "M5",
preserving row order. -/
theorem c8_witness :
    loadMeasurements [[("Junk", CellV.num 1)], [("M value", CellV.num 5)]] =
      [⟨CellV.num 5, CellV.str "M5"⟩] := by
  rw [c8_normalizer_shape.1]
  decide

/-! ### C7 — Arrival coercion priority -/

/-- C7: on any rectangular frame, if `Arrival_datetime` exists it is
authoritative — the resulting `Arrival` column is exactly the parse of
`Arrival_datetime`, whatever `Arrival` previously held; if only
`Arrival` exists, it is parsed in place; if neither exists the frame is
unchanged.  Unparsable cells become `ts none` (the NaT marker) through
`parse`, never an error. -/
theorem c7_arrival_priority (parse : CellV → Option Nat) (df : Frame)
    (hwf : df.WF) :
    (df.hasCol "Arrival_datetime" = true →
      (coerceArrivalF parse df).getCol "Arrival" =
        (df.getCol "Arrival_datetime").map (fun v => CellV.ts (parse v))) ∧
    (df.hasCol "Arrival_datetime" = false → df.hasCol "Arrival" = true →
      (coerceArrivalF parse df).getCol "Arrival" =
        (df.getCol "Arrival").map (fun v => CellV.ts (parse v))) ∧
    (df.hasCol "Arrival_datetime" = false → df.hasCol "Arrival" = false →
      coerceArrivalF parse df = df) := by
  refine ⟨?_, ?_, ?_⟩
  · intro h1
    unfold coerceArrivalF
    rw [if_pos h1]
    apply getCol_setCol_full df "Arrival" _ hwf
    rw [List.length_map]
    exact getCol_length df _ h1
  · intro h1 h2
    unfold coerceArrivalF
    rw [if_neg (by simp [h1]), if_pos h2]
    apply getCol_setCol_full df "Arrival" _ hwf
    rw [List.length_map]
    exact getCol_length df _ h2
  · intro h1 h2
    unfold coerceArrivalF
    rw [if_neg (by simp [h1]), if_neg (by simp [h2])]

/-- C7 witness: on `c7Frame` the pre-existing `Arrival` strings are
overwritten by the parse of `Arrival_datetime`; the parsable cell
becomes its timestamp and the unparsable one becomes NaT. -/
theorem c7_witness :
    c7Frame.hasCol "Arrival_datetime" = true ∧
    (coerceArrivalF parseSample c7Frame).getCol "Arrival" =
      [CellV.ts (some 1709661600), CellV.ts none] := by
  refine ⟨rfl, ?_⟩
  have h := (c7_arrival_priority parseSample c7Frame (by decide)).1 rfl
  rw [h]
  decide

/-! ### C2 — export of an all-empty TravelerReport -/

lemma groupSheets_all_empty (parse : CellV → Option Nat) :
    ∀ tr : TravelerReport, tr.all groupEmptyOrNonTabular = true →
      groupSheets parse tr = [] := by
  intro tr
  induction tr with
  | nil => intro _; rfl
  | cons gv rest ih =>
      intro hall
      rw [List.all_cons, Bool.and_eq_true] at hall
      obtain ⟨hgv, hrest⟩ := hall
      unfold groupSheets at ih ⊢
      rw [List.filterMap_cons]
      obtain ⟨g, v⟩ := gv
      cases v with
      | frame f =>
          have hz : f.rows.isEmpty = true := hgv
          have hemp : f.isEmptyF = true := by
            unfold Frame.isEmptyF
            rw [hz]
            rfl
          dsimp only
          rw [if_pos hemp]
          exact ih hrest
      | other => exact ih hrest

lemma totalEntries_all_empty :
    ∀ tr : TravelerReport, tr.all groupEmptyOrNonTabular = true →
      totalEntriesOf tr = 0 := by
  intro tr
  induction tr with
  | nil => intro _; rfl
  | cons gv rest ih =>
      intro hall
      rw [List.all_cons, Bool.and_eq_true] at hall
      obtain ⟨hgv, hrest⟩ := hall
      unfold totalEntriesOf at ih ⊢
      rw [List.filterMap_cons]
      obtain ⟨g, v⟩ := gv
      cases v with
      | frame f =>
          have hz : f.rows.length = 0 :=
            List.isEmpty_iff_length_eq_zero.mp hgv
          dsimp only
          rw [List.sum_cons, hz, ih hrest]
      | other => exact ih hrest

lemma numGroups_all_empty :
    ∀ tr : TravelerReport, tr.all groupEmptyOrNonTabular = true →
      numGroupsOf tr = 0 := by
  intro tr
  induction tr with
  | nil => intro _; rfl
  | cons gv rest ih =>
      intro hall
      rw [List.all_cons, Bool.and_eq_true] at hall
      obtain ⟨hgv, hrest⟩ := hall
      unfold numGroupsOf at ih ⊢
      rw [List.filter_cons]
      obtain ⟨g, v⟩ := gv
      cases v with
      | frame f =>
          have hz : f.rows.isEmpty = true := hgv
          have hemp : f.isEmptyF = true := by
            unfold Frame.isEmptyF
            rw [hz]
            rfl
          dsimp only
          rw [hemp]
          exact ih hrest
      | other => exact ih hrest

/-- C2 counterexample: for the TravelerReport with no groups at all —
which vacuously has all groups empty or non-tabular — the engine
returns early (the empty dict is falsy) and no workbook artifact is
produced, contradicting the claim that an artifact with zero sheets is
still produced. -/
theorem c2_counterexample :
    (([] : TravelerReport).all groupEmptyOrNonTabular = true) ∧
    render parseSample [] sampleTime "NQ" = none := ⟨rfl, rfl⟩

/-- C2 (amended): for every TravelerReport with at least one group, in
which every group is non-tabular or has no rows, the engine still
produces an artifact with zero sheets and a total-entry count of 0
(and zero counted groups), without failing; only the groupless (empty)
mapping short-circuits to no artifact at all. -/
theorem c2_empty_groups_export (parse : CellV → Option Nat)
    (tr : TravelerReport) (t : DateTime) (asset : String)
    (hne : tr ≠ []) (hall : tr.all groupEmptyOrNonTabular = true) :
    render parse tr t asset =
      some { sheets := [], totalEntries := 0, numGroups := 0,
             fileName := exportFileName asset t } := by
  unfold render
  rw [if_neg (by simp [List.isEmpty_iff, hne])]
  rw [groupSheets_all_empty parse tr hall, totalEntries_all_empty tr hall,
    numGroups_all_empty tr hall]

/-- C2 witness: a report holding one row-less frame and one non-tabular
value yields an artifact with zero sheets and total-entry count 0. -/
theorem c2_witness :
    render parseSample c2SampleReport sampleTime "NQ" =
      some { sheets := [], totalEntries := 0, numGroups := 0,
             fileName := "nq_traveler_report_05-Mar-24_18-00.xlsx" } := by
  have h := c2_empty_groups_export parseSample c2SampleReport sampleTime "NQ"
    (by decide) (by decide)
  rw [h]
  decide

/-! ### C9 — artifact filename -/

/-- C9: every artifact the export engine produces is named
`{lowercased asset id}_traveler_report_{DD-Mon-YY_HH-MM}.xlsx`; when
the asset id is the empty string the asset prefix (with its
underscore) is omitted entirely, with no placeholder text. -/
theorem c9_filename (parse : CellV → Option Nat) (tr : TravelerReport)
    (t : DateTime) (asset : String) (r : ExportResult)
    (h : render parse tr t asset = some r) :
    r.fileName =
      (if asset = "" then "" else strLower asset ++ "_") ++
        "traveler_report_" ++ fmtReportTime t ++ ".xlsx" := by
  unfold render at h
  by_cases he : tr.isEmpty = true
  · rw [if_pos he] at h; cases h
  · rw [if_neg he] at h
    injection h with h
    subst h
    show exportFileName asset t = _
    unfold exportFileName assetPrefixOf
    by_cases ha : asset = ""
    · rw [if_neg (by simp [ha]), if_pos ha]
    · rw [if_pos ha, if_neg ha]

/-- C9 witness: asset id "NQ" and report time 2024-03-05 18:00 yield the
filename `nq_traveler_report_05-Mar-24_18-00.xlsx`. -/
theorem c9_witness :
    (render parseSample c9SampleReport sampleTime "NQ").map
        ExportResult.fileName =
      some "nq_traveler_report_05-Mar-24_18-00.xlsx" := by
  have h : render parseSample c9SampleReport sampleTime "NQ" =
      some c9SampleResult := by decide
  rw [h]
  exact congrArg some
    ((c9_filename parseSample c9SampleReport sampleTime "NQ"
      c9SampleResult h).trans (by decide))

/-! ### C1 — sort order of exported results -/

lemma groupSheets_singleton (parse : CellV → Option Nat) (g : String)
    (f : Frame) (h : f.isEmptyF = false) :
    groupSheets parse [(g, GVal.frame f)] =
      [(sheetNameOf g, coerceArrivalF parse (f.dropCol "Group"))] := by
  unfold groupSheets
  rw [List.filterMap_cons]
  dsimp only
  rw [if_neg (by simp [h])]
  rfl

/-- C1 counterexample: at the spec's own sort-order example (the
"Low 1" row arriving before the "High 1" row), the exported sheet has a
Range column but is not sorted by the claimed precedence
[Range, Group, Output, Arrival]: its Range column still reads
"Low 1" then "High 1", although "High 1" precedes "Low 1" in the
claimed ascending lexical order.  No sort happens between the service
response and the export. -/
theorem c1_counterexample :
    ((handleQueryResult parseSample c1Data sampleTime "NQ").map
        (fun r => r.sheets.map (fun s =>
          (s.2.hasCol "Range", s.2.sortedByB claimSortKeys,
           s.2.getCol "Range")))) =
      some [(true, false, [CellV.str "Low 1", CellV.str "High 1"])] ∧
    cellLe (CellV.str "High 1") (CellV.str "Low 1") = true ∧
    (CellV.str "High 1" ≠ CellV.str "Low 1") := by
  decide

/-- C1 (amended): the result handling applies no sort at all: the
service's rows are exported as the single sheet "Grp_All", whose rows
are an order-preserving per-row image (drop `Group`, coerce `Arrival`)
of the rows exactly as the remote service returned them. -/
theorem c1_order_preserved (parse : CellV → Option Nat) (data : List MRow)
    (t : DateTime) (asset : String)
    (hne : (dataFrameOfRecords data).isEmptyF = false) :
    ((handleQueryResult parse data t asset).map ExportResult.sheets =
      some [("Grp_All",
        coerceArrivalF parse ((dataFrameOfRecords data).dropCol "Group"))]) ∧
    ∃ g, (coerceArrivalF parse ((dataFrameOfRecords data).dropCol "Group")).rows =
      (dataFrameOfRecords data).rows.map g := by
  constructor
  · unfold handleQueryResult render
    rw [if_neg (by simp)]
    show some (groupSheets parse
      [("Grp_All", GVal.frame (dataFrameOfRecords data))]) = _
    rw [groupSheets_singleton parse _ _ hne]
    have hname : sheetNameOf "Grp_All" = "Grp_All" := by decide
    rw [hname]
  · obtain ⟨gd, hgd⟩ := dropCol_rows_map (dataFrameOfRecords data) "Group"
    obtain ⟨gc, hgc⟩ :=
      coerceArrivalF_rows_map parse ((dataFrameOfRecords data).dropCol "Group")
    refine ⟨gc ∘ gd, ?_⟩
    rw [hgc, hgd, List.map_map]

/-- C1 witness: on the concrete two-row example the pipeline exports the
single "Grp_All" sheet holding the per-row transformed service rows. -/
theorem c1_witness :
    (handleQueryResult parseSample c1Data sampleTime "NQ").map
        ExportResult.sheets =
      some [("Grp_All",
        coerceArrivalF parseSample ((dataFrameOfRecords c1Data).dropCol "Group"))] :=
  (c1_order_preserved parseSample c1Data sampleTime "NQ" (by decide)).1

/-! ### C10 — the export does not mutate its input -/

/-- C10: `render_unified_export` never mutates the caller's frames:
every object that existed in the store before the call — in particular
every group's table — is unchanged after it; all writes go to freshly
allocated copies (`drop(...)` / `.copy()` inside
`_coerce_arrival_datetime`). -/
theorem c10_no_input_mutation (parse : CellV → Option Nat)
    (tr : List (String × GRef)) (s : Store) (i : Nat)
    (hi : i < s.length) :
    ((renderRef parse tr s).1).getD i emptyFrame = s.getD i emptyFrame := by
  unfold renderRef
  by_cases he : tr.isEmpty = true
  · rw [if_pos he]
  · rw [if_neg he]
    obtain ⟨ext, hext⟩ := renderRefGroups_store parse tr s
    rw [hext]
    exact getD_append_left s ext i emptyFrame hi

/-- C10 witness: exporting a one-group report (whose frame has `Group`
and `Arrival` columns, so both the drop and the coercion fire) leaves
the stored input frame unchanged. -/
theorem c10_witness :
    ((renderRef parseSample c10Report c10Store).1).getD 0 emptyFrame =
      c10Store.getD 0 emptyFrame :=
  c10_no_input_mutation parseSample c10Report c10Store 0 (by decide)
